import Mathlib

/-!
Verification of the srpc client's resilience subsystem (Go sources under
`client/`): the metrics collector, the circuit breaker, the retry executor,
the reconnect loop, the jittered scheduler interval and the shutdown flag.

Modelling conventions:
* Go `int`/`int64` counters and `time.Duration` (int64 nanoseconds) are
  modelled as `Int`; overflow is not reached by any claim considered here.
* Timestamps (`time.Time`) are modelled as an `Int`-valued monotone clock,
  passed explicitly to every operation that reads `time.Now()`;
  `time.Since t` becomes `now - t`.
* Go `float64` arithmetic in `calculateJitteredInterval` and in the
  `success_rate` snapshot field is modelled over `ℚ`, with the IEEE
  non-finite results (NaN from `0.0/0.0`, ±Inf from `x/0.0`) modelled as
  `Option.none`.  `rand.Float64()` is modelled as an arbitrary `r : ℚ`
  with `0 ≤ r < 1`.
* Goroutine interleavings are not modelled: every method body runs under
  the struct's mutex in the source, so each call is one atomic step and a
  run of the system is a list of such steps.
-/

namespace Srpc

/-- `CircuitBreakerState` from `circuitbreaker.go`: `iota` constants
`CBStateClosed | CBStateOpen | CBStateHalfOpen`. -/
inductive CircuitBreakerState where
  | CBStateClosed
  | CBStateOpen
  | CBStateHalfOpen
deriving DecidableEq, Repr

/-- `func (s CircuitBreakerState) String() string`. -/
def CircuitBreakerState.toGoString : CircuitBreakerState → String
  | .CBStateClosed => "CLOSED"
  | .CBStateOpen => "OPEN"
  | .CBStateHalfOpen => "HALF_OPEN"

/-- `ConnectionState` from `connection.go`: `iota` constants
`StateDisconnected | StateConnecting | StateConnected | StateDegraded`. -/
inductive ConnectionState where
  | StateDisconnected
  | StateConnecting
  | StateConnected
  | StateDegraded
deriving DecidableEq, Repr

/-! ## Metrics collector (`metrics.go`) -/

/-- The `Metrics` struct: all counters behind one mutex (the mutex itself is
not modelled; each method is one atomic step). -/
structure Metrics where
  totalRequests : Int
  successfulRequests : Int
  failedRequests : Int
  totalRequestDuration : Int
  reconnectCount : Int
  circuitBreakerState : CircuitBreakerState
  lastRequestTimestamp : Int
deriving DecidableEq, Repr

/-- `NewMetrics()`: zero-valued counters, `lastRequestTimestamp: time.Now()`. -/
def NewMetrics (now : Int) : Metrics :=
  { totalRequests := 0
    successfulRequests := 0
    failedRequests := 0
    totalRequestDuration := 0
    reconnectCount := 0
    circuitBreakerState := .CBStateClosed
    lastRequestTimestamp := now }

/-- `(m *Metrics) RecordRequest(success bool, duration time.Duration)`. -/
def Metrics.RecordRequest (m : Metrics) (success : Bool) (duration now : Int) :
    Metrics :=
  { m with
    totalRequests := m.totalRequests + 1
    successfulRequests :=
      if success then m.successfulRequests + 1 else m.successfulRequests
    failedRequests :=
      if success then m.failedRequests else m.failedRequests + 1
    totalRequestDuration := m.totalRequestDuration + duration
    lastRequestTimestamp := now }

/-- `(m *Metrics) RecordReconnect()`. -/
def Metrics.RecordReconnect (m : Metrics) : Metrics :=
  { m with reconnectCount := m.reconnectCount + 1 }

/-- `(m *Metrics) UpdateCircuitBreakerState(state CircuitBreakerState)`. -/
def Metrics.UpdateCircuitBreakerState (m : Metrics)
    (state : CircuitBreakerState) : Metrics :=
  { m with circuitBreakerState := state }

/-- The snapshot map returned by `GetMetrics()`, as a structure with one
field per map key.  `success_rate` is `float64(successful)/float64(total)*100`
in Go; `none` models the non-finite float (NaN when `0/0`, ±Inf when
`x/0` with `x ≠ 0`) produced when `totalRequests = 0`. -/
structure MetricsSnapshot where
  total_requests : Int
  successful_requests : Int
  failed_requests : Int
  success_rate : Option ℚ
  average_request_duration_ms : Int
  reconnect_count : Int
  circuit_breaker_state : String
  last_request_timestamp : Int
deriving DecidableEq, Repr

/-- `(m *Metrics) GetMetrics() map[string]interface{}`.  The source guards
`avgDuration` with `if m.totalRequests > 0` but divides for `success_rate`
unconditionally; all operands there are non-negative, so Go's
truncated integer division for `avgDuration` agrees with `Int.div`
(written here with `/` on non-negative values). -/
def Metrics.GetMetrics (m : Metrics) : MetricsSnapshot :=
  let avgDuration : Int :=
    if m.totalRequests > 0 then m.totalRequestDuration / m.totalRequests else 0
  { total_requests := m.totalRequests
    successful_requests := m.successfulRequests
    failed_requests := m.failedRequests
    success_rate :=
      if m.totalRequests = 0 then none
      else some ((m.successfulRequests : ℚ) / (m.totalRequests : ℚ) * 100)
    average_request_duration_ms := avgDuration / 1000000
    reconnect_count := m.reconnectCount
    circuit_breaker_state := m.circuitBreakerState.toGoString
    last_request_timestamp := m.lastRequestTimestamp }

/-- One call to a `Metrics` method, for quantifying over call sequences. -/
inductive MetricsOp where
  | recordRequest (success : Bool) (duration now : Int)
  | recordReconnect
  | updateCircuitBreakerState (state : CircuitBreakerState)
deriving DecidableEq, Repr

/-- Apply one `Metrics` method call. -/
def Metrics.step (m : Metrics) : MetricsOp → Metrics
  | .recordRequest success duration now => m.RecordRequest success duration now
  | .recordReconnect => m.RecordReconnect
  | .updateCircuitBreakerState state => m.UpdateCircuitBreakerState state

/-- Apply a sequence of `Metrics` method calls. -/
def Metrics.run (m : Metrics) (ops : List MetricsOp) : Metrics :=
  ops.foldl Metrics.step m

/-- One `Metrics` method call keeps `totalRequests = successful + failed`. -/
lemma Metrics.step_total_eq (m : Metrics) (op : MetricsOp)
    (h : m.totalRequests = m.successfulRequests + m.failedRequests) :
    (m.step op).totalRequests =
      (m.step op).successfulRequests + (m.step op).failedRequests := by
  cases op with
  | recordRequest success duration now =>
      cases success <;>
        simp only [Metrics.step, Metrics.RecordRequest, Bool.false_eq_true,
          if_true, if_false] <;> omega
  | recordReconnect => simpa [Metrics.step, Metrics.RecordReconnect] using h
  | updateCircuitBreakerState state =>
      simpa [Metrics.step, Metrics.UpdateCircuitBreakerState] using h

/-- Any sequence of `Metrics` method calls keeps
`totalRequests = successful + failed`. -/
lemma Metrics.run_total_eq (ops : List MetricsOp) (m : Metrics)
    (h : m.totalRequests = m.successfulRequests + m.failedRequests) :
    (m.run ops).totalRequests =
      (m.run ops).successfulRequests + (m.run ops).failedRequests := by
  induction ops generalizing m with
  | nil => exact h
  | cons op ops ih => exact ih (m.step op) (m.step_total_eq op h)

/-- C10: every `Metrics` state reachable from `NewMetrics()` satisfies
`totalRequests = successfulRequests + failedRequests`; `RecordRequest`
increments `totalRequests` and exactly one of `successfulRequests` /
`failedRequests` (by the `success` flag), and neither `RecordReconnect`
nor `UpdateCircuitBreakerState` changes any of the three counters. -/
theorem C10_metrics_counter_invariant :
    (∀ (now : Int) (ops : List MetricsOp),
      ((NewMetrics now).run ops).totalRequests =
        ((NewMetrics now).run ops).successfulRequests +
          ((NewMetrics now).run ops).failedRequests) ∧
    (∀ (m : Metrics) (success : Bool) (duration now : Int),
      (m.RecordRequest success duration now).totalRequests =
          m.totalRequests + 1 ∧
      (m.RecordRequest success duration now).successfulRequests =
          (if success then m.successfulRequests + 1
           else m.successfulRequests) ∧
      (m.RecordRequest success duration now).failedRequests =
          (if success then m.failedRequests else m.failedRequests + 1)) ∧
    (∀ m : Metrics,
      m.RecordReconnect.totalRequests = m.totalRequests ∧
      m.RecordReconnect.successfulRequests = m.successfulRequests ∧
      m.RecordReconnect.failedRequests = m.failedRequests) ∧
    (∀ (m : Metrics) (state : CircuitBreakerState),
      (m.UpdateCircuitBreakerState state).totalRequests = m.totalRequests ∧
      (m.UpdateCircuitBreakerState state).successfulRequests =
          m.successfulRequests ∧
      (m.UpdateCircuitBreakerState state).failedRequests =
          m.failedRequests) := by
  refine ⟨fun now ops => ?_, fun m success duration now => ?_, fun m => ?_,
    fun m state => ?_⟩
  · exact Metrics.run_total_eq ops (NewMetrics now) (by simp [NewMetrics])
  · refine ⟨rfl, ?_, ?_⟩ <;> cases success <;> simp [Metrics.RecordRequest]
  · exact ⟨rfl, rfl, rfl⟩
  · exact ⟨rfl, rfl, rfl⟩

/-- C1 (failing part evaluated): on a fresh `Metrics` collector, before any
`RecordRequest`, the snapshot's `success_rate` is the non-finite float
`0.0/0.0*100` (NaN), i.e. `none` in the model — not a defined finite value;
after 3 successful and 1 failed `RecordRequest` it is the defined value 75. -/
theorem C1_success_rate_nan_on_fresh_metrics :
    ∀ (now d1 d2 d3 d4 t1 t2 t3 t4 : Int),
      ((NewMetrics now).GetMetrics).success_rate = none ∧
      (((((NewMetrics now).RecordRequest true d1 t1).RecordRequest true d2
          t2).RecordRequest true d3 t3).RecordRequest false d4
          t4).GetMetrics.success_rate = some 75 := by
  intro now d1 d2 d3 d4 t1 t2 t3 t4
  constructor
  · rfl
  · simp only [NewMetrics, Metrics.RecordRequest, Metrics.GetMetrics,
      if_true, if_false]
    norm_num

/-! ## Circuit breaker (`circuitbreaker.go`)

Every method body runs under `cb.mu`; the source's `AllowRequest` drops the
read lock and reacquires a write lock for the `Open → HalfOpen` upgrade (a
known race, noted in the design), which sequentially is one atomic step. -/

/-- The `CircuitBreaker` struct. -/
structure CircuitBreaker where
  state : CircuitBreakerState
  failureCount : Int
  successCount : Int
  lastStateChange : Int
  openDuration : Int
  failureThreshold : Int
  successThreshold : Int
  halfOpenMaxCalls : Int
  halfOpenCallCount : Int
deriving DecidableEq, Repr

/-- `NewCircuitBreaker(failureThreshold, successThreshold int, openDuration
time.Duration)`: starts `CBStateClosed`, `halfOpenMaxCalls: 3`, every other
field the Go zero value (`lastStateChange` is the zero `time.Time`, modelled
as clock value 0). -/
def NewCircuitBreaker (failureThreshold successThreshold openDuration : Int) :
    CircuitBreaker :=
  { state := .CBStateClosed
    failureCount := 0
    successCount := 0
    lastStateChange := 0
    openDuration := openDuration
    failureThreshold := failureThreshold
    successThreshold := successThreshold
    halfOpenMaxCalls := 3
    halfOpenCallCount := 0 }

/-- `(cb *CircuitBreaker) AllowRequest() bool`, with `time.Now()` passed as
`now`; returns the Go result together with the updated struct
(`time.Since(cb.lastStateChange) >= cb.openDuration` is
`now - cb.lastStateChange ≥ cb.openDuration`). -/
def CircuitBreaker.AllowRequest (cb : CircuitBreaker) (now : Int) :
    Bool × CircuitBreaker :=
  match cb.state with
  | .CBStateClosed => (true, cb)
  | .CBStateOpen =>
      if now - cb.lastStateChange ≥ cb.openDuration then
        (true, { cb with
          state := .CBStateHalfOpen
          halfOpenCallCount := 0
          lastStateChange := now })
      else (false, cb)
  | .CBStateHalfOpen =>
      if cb.halfOpenCallCount < cb.halfOpenMaxCalls then (true, cb)
      else (false, cb)

/-- `(cb *CircuitBreaker) RecordSuccess()`, with `time.Now()` as `now`. -/
def CircuitBreaker.RecordSuccess (cb : CircuitBreaker) (now : Int) :
    CircuitBreaker :=
  match cb.state with
  | .CBStateClosed =>
      { cb with successCount := cb.successCount + 1, failureCount := 0 }
  | .CBStateHalfOpen =>
      let cb := { cb with
        halfOpenCallCount := cb.halfOpenCallCount + 1
        successCount := cb.successCount + 1 }
      if cb.successCount ≥ cb.successThreshold then
        { cb with
          state := .CBStateClosed
          successCount := 0
          failureCount := 0
          lastStateChange := now }
      else cb
  | .CBStateOpen => cb

/-- `(cb *CircuitBreaker) RecordFailure()`, with `time.Now()` as `now`. -/
def CircuitBreaker.RecordFailure (cb : CircuitBreaker) (now : Int) :
    CircuitBreaker :=
  match cb.state with
  | .CBStateClosed =>
      let cb := { cb with
        failureCount := cb.failureCount + 1
        successCount := 0 }
      if cb.failureCount ≥ cb.failureThreshold then
        { cb with state := .CBStateOpen, lastStateChange := now }
      else cb
  | .CBStateHalfOpen =>
      { cb with
        halfOpenCallCount := cb.halfOpenCallCount + 1
        failureCount := cb.failureCount + 1
        successCount := 0
        state := .CBStateOpen
        lastStateChange := now }
  | .CBStateOpen => cb

/-- One call to a `CircuitBreaker` method (with its `time.Now()` value). -/
inductive CBOp where
  | allowRequest (now : Int)
  | recordSuccess (now : Int)
  | recordFailure (now : Int)
deriving DecidableEq, Repr

/-- Apply one `CircuitBreaker` method call (the `Bool` result of
`AllowRequest` is discarded; only the state effect matters here). -/
def CircuitBreaker.step (cb : CircuitBreaker) : CBOp → CircuitBreaker
  | .allowRequest now => (cb.AllowRequest now).2
  | .recordSuccess now => cb.RecordSuccess now
  | .recordFailure now => cb.RecordFailure now

/-- Apply a sequence of `CircuitBreaker` method calls. -/
def CircuitBreaker.run (cb : CircuitBreaker) (ops : List CBOp) :
    CircuitBreaker :=
  ops.foldl CircuitBreaker.step cb

/-- In `CBStateOpen` before the cooldown has elapsed, `AllowRequest` denies
and leaves the breaker unchanged. -/
lemma CircuitBreaker.allowRequest_open_early (cb : CircuitBreaker) (now : Int)
    (hst : cb.state = .CBStateOpen)
    (h : now - cb.lastStateChange < cb.openDuration) :
    cb.AllowRequest now = (false, cb) := by
  unfold CircuitBreaker.AllowRequest
  rw [hst]
  simp only [if_neg (not_le.mpr h)]

/-- In `CBStateOpen` once the cooldown has elapsed, `AllowRequest` admits and
moves to `CBStateHalfOpen` with `halfOpenCallCount = 0`. -/
lemma CircuitBreaker.allowRequest_open_late (cb : CircuitBreaker) (now : Int)
    (hst : cb.state = .CBStateOpen)
    (h : cb.openDuration ≤ now - cb.lastStateChange) :
    cb.AllowRequest now =
      (true, { cb with
        state := .CBStateHalfOpen
        halfOpenCallCount := 0
        lastStateChange := now }) := by
  unfold CircuitBreaker.AllowRequest
  rw [hst]
  simp only [if_pos h]

/-- C3: for a breaker in the `Open` state, `AllowRequest` returns `false` and
changes nothing while `now - lastStateChange < openDuration`, and the first
call with `now - lastStateChange ≥ openDuration` returns `true` and moves the
state to `HalfOpen`. -/
theorem C3_open_allowRequest_threshold (cb : CircuitBreaker) (now : Int)
    (hst : cb.state = .CBStateOpen) :
    (now - cb.lastStateChange < cb.openDuration →
      cb.AllowRequest now = (false, cb)) ∧
    (cb.openDuration ≤ now - cb.lastStateChange →
      (cb.AllowRequest now).1 = true ∧
      (cb.AllowRequest now).2.state = .CBStateHalfOpen) := by
  refine ⟨fun h => cb.allowRequest_open_early now hst h, fun h => ?_⟩
  rw [cb.allowRequest_open_late now hst h]
  exact ⟨rfl, rfl⟩

/-- A breaker that has tripped open: `failureThreshold = 5`, five
`RecordFailure()` calls from fresh (the fifth at clock time 0). -/
def cbOpenExample : CircuitBreaker :=
  (NewCircuitBreaker 5 3 30).run
    [.recordFailure 0, .recordFailure 0, .recordFailure 0, .recordFailure 0,
     .recordFailure 0]

/-- Witness for `C3_open_allowRequest_threshold` on `cbOpenExample`
(`openDuration = 30`, transition at time 0): denied at time 10, admitted and
flipped to `HalfOpen` at time 30. -/
theorem C3_open_allowRequest_threshold_witness :
    cbOpenExample.state = .CBStateOpen ∧
    cbOpenExample.AllowRequest 10 = (false, cbOpenExample) ∧
    (cbOpenExample.AllowRequest 30).1 = true ∧
    (cbOpenExample.AllowRequest 30).2.state = .CBStateHalfOpen := by
  refine ⟨by decide,
    (C3_open_allowRequest_threshold cbOpenExample 10 (by decide)).1
    (by decide),
    (C3_open_allowRequest_threshold cbOpenExample 30 (by decide)).2
    (by decide)⟩

/-- C4: from a fresh breaker with `failureThreshold = 5`, five consecutive
`RecordFailure()` calls (at any times, the fifth at `t5`) leave the state
`Open`, and an `AllowRequest` call with `now - t5 < openDuration` returns
`false`. -/
theorem C4_five_failures_trip_open (st od t1 t2 t3 t4 t5 now : Int)
    (h : now - t5 < od) :
    ((NewCircuitBreaker 5 st od).run
      [.recordFailure t1, .recordFailure t2, .recordFailure t3,
       .recordFailure t4, .recordFailure t5]).state = .CBStateOpen ∧
    (((NewCircuitBreaker 5 st od).run
      [.recordFailure t1, .recordFailure t2, .recordFailure t3,
       .recordFailure t4, .recordFailure t5]).AllowRequest now).1 = false := by
  have hrun : (NewCircuitBreaker 5 st od).run
      [.recordFailure t1, .recordFailure t2, .recordFailure t3,
       .recordFailure t4, .recordFailure t5] =
      { NewCircuitBreaker 5 st od with
        state := .CBStateOpen
        failureCount := 5
        lastStateChange := t5 } := by
    simp only [CircuitBreaker.run, List.foldl, CircuitBreaker.step,
      CircuitBreaker.RecordFailure, NewCircuitBreaker]
    norm_num
  rw [hrun]
  refine ⟨rfl, ?_⟩
  rw [CircuitBreaker.allowRequest_open_early _ now rfl (by simpa using h)]

/-- Witness for `C4_five_failures_trip_open`: all five failures at time 0,
`openDuration = 30`, `AllowRequest` at time 10. -/
theorem C4_five_failures_trip_open_witness :
    (10 : Int) - 0 < 30 ∧
    ((NewCircuitBreaker 5 3 30).run
      [.recordFailure 0, .recordFailure 0, .recordFailure 0, .recordFailure 0,
       .recordFailure 0]).state = .CBStateOpen ∧
    (((NewCircuitBreaker 5 3 30).run
      [.recordFailure 0, .recordFailure 0, .recordFailure 0, .recordFailure 0,
       .recordFailure 0]).AllowRequest 10).1 = false := by
  have h := C4_five_failures_trip_open 3 30 0 0 0 0 0 10 (by decide)
  exact ⟨by decide, h.1, h.2⟩

/-- A breaker with `failureThreshold = 1`, `successThreshold = 1`,
`openDuration = 30`, after one `RecordFailure()` at time 0: state `Open`. -/
def cbC2open : CircuitBreaker := (NewCircuitBreaker 1 1 30).run
  [.recordFailure 0]

/-- `cbC2open` after `AllowRequest()` at time 30: state `HalfOpen`. -/
def cbC2halfOpen : CircuitBreaker := (cbC2open.AllowRequest 30).2

/-- `cbC2halfOpen` after `RecordSuccess()` at time 31: state `Closed`. -/
def cbC2closed : CircuitBreaker := cbC2halfOpen.RecordSuccess 31

/-- C2 counterexample: not every counter is reset on every transition.
The `Closed → Open` transition (one failure with `failureThreshold = 1`)
leaves `failureCount = 1`, and the `HalfOpen → Closed` transition (one
success with `successThreshold = 1`) leaves `halfOpenCallCount = 1`, so in
particular `HalfOpen → Closed` does not reset all counters. -/
theorem C2_counterexample_counters_not_reset :
    cbC2open.state = .CBStateOpen ∧ cbC2open.failureCount = 1 ∧
    cbC2halfOpen.state = .CBStateHalfOpen ∧
    cbC2closed.state = .CBStateClosed ∧
    cbC2closed.halfOpenCallCount = 1 := by decide

/-- One `CircuitBreaker` method call preserves "in state `Open` the
`successCount` is 0": every path into `Open` zeroes `successCount` and no
call touches `successCount` while `Open`. -/
lemma CircuitBreaker.step_open_successCount (cb : CircuitBreaker) (op : CBOp)
    (h : cb.state = .CBStateOpen → cb.successCount = 0) :
    (cb.step op).state = .CBStateOpen → (cb.step op).successCount = 0 := by
  obtain ⟨state, fc, sc, lsc, od, ft, st, hm, hoc⟩ := cb
  cases op <;> cases state <;>
    simp only [CircuitBreaker.step, CircuitBreaker.AllowRequest,
      CircuitBreaker.RecordSuccess, CircuitBreaker.RecordFailure] <;>
    first
      | trivial
      | exact fun hc => CircuitBreakerState.noConfusion hc
      | exact fun _ => h rfl
      | exact fun _ => rfl
      | (split <;>
          first
            | trivial
            | exact fun hc => CircuitBreakerState.noConfusion hc
            | exact fun _ => h rfl
            | exact fun _ => rfl)

/-- Along any run from a fresh breaker, state `Open` implies
`successCount = 0`. -/
lemma CircuitBreaker.run_open_successCount (ops : List CBOp)
    (cb : CircuitBreaker) (h : cb.state = .CBStateOpen → cb.successCount = 0) :
    (cb.run ops).state = .CBStateOpen → (cb.run ops).successCount = 0 := by
  induction ops generalizing cb with
  | nil => exact h
  | cons op ops ih => exact ih (cb.step op) (cb.step_open_successCount op h)

/-- C2 amended: on the `Open → HalfOpen` transition `AllowRequest` resets
`halfOpenCallCount`, and since every reachable `Open` state already has
`successCount = 0` (zeroed by the failure that opened the breaker) the fresh
`HalfOpen` state also has `successCount = 0`; the `HalfOpen → Closed`
transition resets `successCount` and `failureCount` (but not
`halfOpenCallCount`, and `Closed → Open` leaves `failureCount` at the
threshold, per the counterexample). -/
theorem C2_amended_counter_resets (ft st od : Int) (ops : List CBOp) :
    ((((NewCircuitBreaker ft st od).run ops).state = .CBStateOpen →
       ((NewCircuitBreaker ft st od).run ops).successCount = 0)) ∧
    (∀ now,
      ((NewCircuitBreaker ft st od).run ops).state = .CBStateOpen →
      ((NewCircuitBreaker ft st od).run ops).openDuration ≤
        now - ((NewCircuitBreaker ft st od).run ops).lastStateChange →
      ((((NewCircuitBreaker ft st od).run ops).AllowRequest now).2.state =
          .CBStateHalfOpen ∧
       (((NewCircuitBreaker ft st od).run ops).AllowRequest
          now).2.halfOpenCallCount = 0 ∧
       (((NewCircuitBreaker ft st od).run ops).AllowRequest
          now).2.successCount = 0)) ∧
    (∀ now,
      ((NewCircuitBreaker ft st od).run ops).state = .CBStateHalfOpen →
      (((NewCircuitBreaker ft st od).run ops).RecordSuccess now).state =
        .CBStateClosed →
      ((((NewCircuitBreaker ft st od).run ops).RecordSuccess
          now).successCount = 0 ∧
       (((NewCircuitBreaker ft st od).run ops).RecordSuccess
          now).failureCount = 0)) := by
  set cb := (NewCircuitBreaker ft st od).run ops with hcb
  have hopen : cb.state = .CBStateOpen → cb.successCount = 0 := by
    rw [hcb]
    exact CircuitBreaker.run_open_successCount ops (NewCircuitBreaker ft st od)
      (fun _ => rfl)
  refine ⟨hopen, fun now hst hle => ?_, fun now hst hclosed => ?_⟩
  · rw [cb.allowRequest_open_late now hst hle]
    exact ⟨rfl, rfl, hopen hst⟩
  · revert hclosed
    simp only [CircuitBreaker.RecordSuccess, hst]
    split
    · exact fun _ => ⟨rfl, rfl⟩
    · intro hc; cases hc

/-- Witness for `C2_amended_counter_resets` on the `cbC2open` trace:
the `Open → HalfOpen` step at time 30 yields `halfOpenCallCount = 0` and
`successCount = 0`, and the `HalfOpen → Closed` step at time 31 yields
`successCount = 0` and `failureCount = 0`. -/
theorem C2_amended_counter_resets_witness :
    (cbC2halfOpen.state = .CBStateHalfOpen ∧
     cbC2halfOpen.halfOpenCallCount = 0 ∧
     cbC2halfOpen.successCount = 0) ∧
    (cbC2closed.successCount = 0 ∧ cbC2closed.failureCount = 0) := by
  have h1 := (C2_amended_counter_resets 1 1 30 [.recordFailure 0]).2.1 30
    (by decide) (by decide)
  have h2 := (C2_amended_counter_resets 1 1 30
    [.recordFailure 0, .allowRequest 30]).2.2 31 (by decide) (by decide)
  exact ⟨h1, h2⟩

/-! ## Retry executor (`retry.go`)

`executeWithRetry` is fire-and-forget; its observable trace is the number of
`operation()` invocations, the backoff sleeps, and how the loop ended.
Errors are abstract codes (`ℕ`); `opErr k` is the result of the `k`-th
`operation()` call (`none` = success); `shut k` is the `IsShutting()` value
read at the top of iteration `k`; `fatalClass` is the error classifier the
loop consults (the repository's classifier is `isFatalError` below). -/

/-- How one `executeWithRetry` run ended. -/
inductive RetryExit where
  | shutdownObserved
  | succeeded
  | fatalError
  | exhausted
deriving DecidableEq, Repr

/-- Observable trace of one `executeWithRetry` run: number of `operation()`
calls, backoff sleep durations in seconds (in order), and the exit kind. -/
structure RetryTrace where
  attempts : Nat
  backoffs : List Int
  exit : RetryExit
deriving DecidableEq, Repr

/-- The sleep before (1-based) attempt `attempt`:
`time.Duration(attempt*attempt) * time.Second`, capped at `10*time.Second`
(`if backoff > 10s { backoff = 10s }`), in seconds. -/
def retryBackoff (attempt : Nat) : Int :=
  if (attempt : Int) * attempt > 10 then 10 else (attempt : Int) * attempt

/-- The loop of `(c *GRPCClient) executeWithRetry(operation func() error)`,
from iteration `attempt` on.  The `¬ attempt ≤ maxRetries` branch is
unreachable from `attempt = 0` (Go `attempt <= c.config.MaxRetries` with the
loop entered at 0; a negative `MaxRetries` is not modelled). -/
def executeWithRetryAux (maxRetries : Nat) (shut : Nat → Bool)
    (opErr : Nat → Option Nat) (fatalClass : Nat → Bool) (attempt : Nat) :
    RetryTrace :=
  if h : attempt ≤ maxRetries then
    if shut attempt then ⟨0, [], .shutdownObserved⟩
    else
      let backs : List Int :=
        if attempt > 0 then [retryBackoff attempt] else []
      match opErr attempt with
      | none => ⟨1, backs, .succeeded⟩
      | some e =>
        if fatalClass e then ⟨1, backs, .fatalError⟩
        else if heq : attempt = maxRetries then ⟨1, backs, .exhausted⟩
        else
          let rest :=
            executeWithRetryAux maxRetries shut opErr fatalClass (attempt + 1)
          ⟨rest.attempts + 1, backs ++ rest.backoffs, rest.exit⟩
  else ⟨0, [], .exhausted⟩
termination_by maxRetries + 1 - attempt
decreasing_by omega

/-- `executeWithRetry`: the loop entered at `attempt = 0`. -/
def executeWithRetry (maxRetries : Nat) (shut : Nat → Bool)
    (opErr : Nat → Option Nat) (fatalClass : Nat → Bool) : RetryTrace :=
  executeWithRetryAux maxRetries shut opErr fatalClass 0

/-- `isFatalError(err error) bool` from `retry.go`: the repository's
classifier returns `false` for every error (the TODO notes gRPC-code-based
classification as future work). -/
def isFatalError : Nat → Bool := fun _ => false

/-- C6: with `maxRetries = 3`, an operation that fails on every attempt with
an error the classifier calls non-fatal, and shutdown never observed,
`executeWithRetry` makes exactly 4 attempts and sleeps
`min(10s, attempt²·1s)` before attempts 1, 2, 3 (1-based after the first),
so the backoff sequence is `[1, 4, 9]` seconds — non-decreasing and capped
at 10 seconds. -/
theorem C6_four_attempts_backoff (opErr : Nat → Option Nat)
    (fatalClass : Nat → Bool)
    (h : ∀ k, ∃ e, opErr k = some e ∧ fatalClass e = false) :
    executeWithRetry 3 (fun _ => false) opErr fatalClass =
      ⟨4, [retryBackoff 1, retryBackoff 2, retryBackoff 3], .exhausted⟩ ∧
    executeWithRetry 3 (fun _ => false) opErr fatalClass =
      ⟨4, [1, 4, 9], .exhausted⟩ ∧
    (executeWithRetry 3 (fun _ => false) opErr fatalClass).backoffs.Chain'
      (· ≤ ·) ∧
    (∀ b ∈ (executeWithRetry 3 (fun _ => false) opErr fatalClass).backoffs,
      b ≤ 10) := by
  obtain ⟨e0, he0, hf0⟩ := h 0
  obtain ⟨e1, he1, hf1⟩ := h 1
  obtain ⟨e2, he2, hf2⟩ := h 2
  obtain ⟨e3, he3, hf3⟩ := h 3
  have key : executeWithRetry 3 (fun _ => false) opErr fatalClass =
      ⟨4, [1, 4, 9], .exhausted⟩ := by
    rw [executeWithRetry, executeWithRetryAux, he0]
    simp only [hf0]
    rw [executeWithRetryAux, he1]
    simp only [hf1]
    rw [executeWithRetryAux, he2]
    simp only [hf2]
    rw [executeWithRetryAux, he3]
    simp only [hf3]
    norm_num [retryBackoff]
  refine ⟨?_, key, ?_, ?_⟩
  · rw [key]; decide
  · rw [key]; norm_num [List.chain'_cons, List.chain'_singleton]
  · rw [key]; norm_num

/-- Witness for `C6_four_attempts_backoff`: the operation always fails with
error code 0 and the classifier is the repository's `isFatalError`. -/
theorem C6_four_attempts_backoff_witness :
    (∀ k : Nat, ∃ e, (fun _ : Nat => some 0) k = some e ∧
      isFatalError e = false) ∧
    executeWithRetry 3 (fun _ => false) (fun _ => some 0) isFatalError =
      ⟨4, [1, 4, 9], .exhausted⟩ := by
  refine ⟨fun k => ⟨0, rfl, rfl⟩, ?_⟩
  exact (C6_four_attempts_backoff (fun _ => some 0) isFatalError
    (fun k => ⟨0, rfl, rfl⟩)).2.1

/-! ## Reconnect loop (`connection.go`, `(c *GRPCClient) reconnect()`)

`shut k` is the `IsShutting()` value read at the top of loop iteration `k`
(`shutEntry` the one read on entry); `conn k` is whether the `k`-th
`connect()` call succeeds.  One `connect()` call nets `StateConnected` and a
nil error on success, `StateDisconnected` and the dial error on failure
(its transient `StateConnecting` is not observable after the call). -/

/-- The client's `lastError` field, abstracted to which code path set it. -/
inductive LastError where
  | nilErr
  | dialError
  | reconnectExhausted
deriving DecidableEq, Repr

/-- The client state touched by `reconnect()`: `connectionState`,
`lastError`, and a counter of reconnect-exhausted error logs. -/
structure ReconnState where
  connectionState : ConnectionState
  lastError : LastError
  exhaustedLogs : Nat
deriving DecidableEq, Repr

/-- Observable trace of the retry loop inside `reconnect()`: number of
`connect()` calls, backoff sleeps in seconds (in order), final state. -/
structure ReconnectTrace where
  attempts : Nat
  backoffs : List Int
  final : ReconnState
deriving DecidableEq, Repr

/-- The backoff slept after failed attempt `retryCount` (0-based):
`time.Duration(retryCount*retryCount+1) * time.Second`, capped at 30s, in
seconds. -/
def reconnectBackoff (retryCount : Nat) : Int :=
  if (retryCount : Int) * retryCount + 1 > 30 then 30
  else (retryCount : Int) * retryCount + 1

/-- The `for retryCount < maxReconnectRetries` loop of `reconnect()` (with
`maxReconnectRetries = 5`), from iteration `retryCount` in state `cur`; the
`else` branch is the post-loop exhaustion code: set `StateDisconnected`,
record the terminal error, log the reconnect-exhausted condition once. -/
def reconnectLoop (shut conn : Nat → Bool) (retryCount : Nat)
    (cur : ReconnState) : ReconnectTrace :=
  if h : retryCount < 5 then
    if shut retryCount then ⟨0, [], cur⟩
    else if conn retryCount then
      ⟨1, [], { cur with
        connectionState := .StateConnected, lastError := .nilErr }⟩
    else
      let cur' : ReconnState := { cur with
        connectionState := .StateDisconnected, lastError := .dialError }
      let rest := reconnectLoop shut conn (retryCount + 1) cur'
      ⟨rest.attempts + 1, reconnectBackoff retryCount :: rest.backoffs,
        rest.final⟩
  else
    ⟨0, [], { cur with
      connectionState := .StateDisconnected,
      lastError := .reconnectExhausted,
      exhaustedLogs := cur.exhaustedLogs + 1 }⟩
termination_by 5 - retryCount
decreasing_by omega

/-- Result of one `reconnect()` call: whether it returned immediately on the
shutdown check, whether it closed a pre-existing connection, and the loop
trace. -/
structure ReconnectResult where
  noop : Bool
  closedOld : Bool
  trace : ReconnectTrace
deriving DecidableEq, Repr

/-- `(c *GRPCClient) reconnect()`: immediate return when shutting down,
otherwise close any old connection, set `StateConnecting`, and run the retry
loop from `retryCount = 0`. -/
def reconnect (shutEntry : Bool) (shut conn : Nat → Bool)
    (hasOldConn : Bool) (init : ReconnState) : ReconnectResult :=
  if shutEntry then ⟨true, false, ⟨0, [], init⟩⟩
  else
    ⟨false, hasOldConn,
      reconnectLoop shut conn 0
        { init with connectionState := .StateConnecting }⟩

/-- Unfolding one failed-attempt iteration of the reconnect loop. -/
lemma reconnectLoop_fail_step (shut conn : Nat → Bool) (r : Nat)
    (cur : ReconnState) (h5 : r < 5) (hs : shut r = false)
    (hc : conn r = false) :
    reconnectLoop shut conn r cur =
      ⟨(reconnectLoop shut conn (r + 1)
          { cur with connectionState := .StateDisconnected,
                     lastError := .dialError }).attempts + 1,
       reconnectBackoff r ::
         (reconnectLoop shut conn (r + 1)
          { cur with connectionState := .StateDisconnected,
                     lastError := .dialError }).backoffs,
       (reconnectLoop shut conn (r + 1)
          { cur with connectionState := .StateDisconnected,
                     lastError := .dialError }).final⟩ := by
  rw [reconnectLoop, dif_pos h5, if_neg (by simp [hs]), if_neg (by simp [hc])]

/-- The reconnect loop makes at most `5 - retryCount` further attempts. -/
lemma reconnectLoop_attempts_le (shut conn : Nat → Bool) :
    ∀ (n r : Nat) (cur : ReconnState), 5 - r ≤ n →
      (reconnectLoop shut conn r cur).attempts ≤ n := by
  intro n
  induction n with
  | zero =>
      intro r cur hr
      rw [reconnectLoop, dif_neg (by omega)]
  | succ n ih =>
      intro r cur hr
      by_cases h5 : r < 5
      · rw [reconnectLoop, dif_pos h5]
        by_cases hs : shut r = true
        · rw [if_pos hs]; exact Nat.zero_le _
        · rw [if_neg hs]
          by_cases hc : conn r = true
          · rw [if_pos hc]; exact Nat.succ_le_succ (Nat.zero_le n)
          · rw [if_neg hc]
            exact Nat.succ_le_succ (ih (r + 1) _ (by omega))
      · rw [reconnectLoop, dif_neg h5]
        exact Nat.zero_le _

/-- The backoffs slept by the reconnect loop from iteration `r` are exactly
`reconnectBackoff` of the consecutive iteration indices starting at `r`. -/
lemma reconnectLoop_backoffs (shut conn : Nat → Bool) :
    ∀ (n r : Nat) (cur : ReconnState), 5 - r ≤ n →
      (reconnectLoop shut conn r cur).backoffs =
        (List.range' r (reconnectLoop shut conn r cur).backoffs.length).map
          reconnectBackoff := by
  intro n
  induction n with
  | zero =>
      intro r cur hr
      rw [reconnectLoop, dif_neg (by omega)]
      rfl
  | succ n ih =>
      intro r cur hr
      by_cases h5 : r < 5
      · by_cases hs : shut r = true
        · rw [reconnectLoop, dif_pos h5, if_pos hs]; rfl
        · by_cases hc : conn r = true
          · rw [reconnectLoop, dif_pos h5, if_neg hs, if_pos hc]; rfl
          · rw [reconnectLoop_fail_step shut conn r cur h5
              (by simpa using hs) (by simpa using hc)]
            have ih' := ih (r + 1)
              { cur with connectionState := .StateDisconnected,
                         lastError := .dialError } (by omega)
            rw [List.length_cons, List.range'_succ, List.map_cons]
            exact congrArg _ ih'
      · rw [reconnectLoop, dif_neg h5]; rfl

/-- If shutdown is first observed at iteration `k` (all earlier attempts
failed without shutdown), the reconnect loop from `r ≤ k` aborts with
`k - r` further attempts and no exhausted log. -/
lemma reconnectLoop_abort (shut conn : Nat → Bool) :
    ∀ (n r : Nat) (cur : ReconnState) (k : Nat), 5 - r ≤ n → r ≤ k →
      k < 5 → shut k = true →
      (∀ j, r ≤ j → j < k → shut j = false ∧ conn j = false) →
      (reconnectLoop shut conn r cur).attempts = k - r ∧
      (reconnectLoop shut conn r cur).final.exhaustedLogs =
        cur.exhaustedLogs := by
  intro n
  induction n with
  | zero =>
      intro r cur k hn hrk hk5 _ _
      exact absurd hk5 (by omega)
  | succ n ih =>
      intro r cur k hn hrk hk5 hsk hpre
      by_cases hrk' : r = k
      · subst hrk'
        rw [reconnectLoop, dif_pos (by omega), if_pos hsk]
        exact ⟨by simp, rfl⟩
      · have hr : r < k := by omega
        obtain ⟨hsr, hcr⟩ := hpre r le_rfl hr
        rw [reconnectLoop_fail_step shut conn r cur (by omega) hsr hcr]
        have h := ih (r + 1)
          { cur with connectionState := .StateDisconnected,
                     lastError := .dialError } k (by omega) (by omega) hk5
          hsk (fun j h1 h2 => hpre j (by omega) h2)
        refine ⟨?_, h.2⟩
        have := h.1
        simp only at this ⊢
        omega

/-- When every attempt fails and shutdown is never observed, the loop from
fresh makes all 5 attempts, sleeps `[1, 2, 5, 10, 17]` seconds, and ends
`StateDisconnected` with the terminal error and exactly one exhausted log. -/
lemma reconnectLoop_allfail (shut conn : Nat → Bool) (cur : ReconnState)
    (h : ∀ k, k < 5 → shut k = false ∧ conn k = false) :
    reconnectLoop shut conn 0 cur =
      ⟨5, [1, 2, 5, 10, 17],
       { connectionState := .StateDisconnected,
         lastError := .reconnectExhausted,
         exhaustedLogs := cur.exhaustedLogs + 1 }⟩ := by
  obtain ⟨hs0, hc0⟩ := h 0 (by omega)
  obtain ⟨hs1, hc1⟩ := h 1 (by omega)
  obtain ⟨hs2, hc2⟩ := h 2 (by omega)
  obtain ⟨hs3, hc3⟩ := h 3 (by omega)
  obtain ⟨hs4, hc4⟩ := h 4 (by omega)
  rw [reconnectLoop_fail_step shut conn 0 _ (by omega) hs0 hc0,
    reconnectLoop_fail_step shut conn 1 _ (by omega) hs1 hc1,
    reconnectLoop_fail_step shut conn 2 _ (by omega) hs2 hc2,
    reconnectLoop_fail_step shut conn 3 _ (by omega) hs3 hc3,
    reconnectLoop_fail_step shut conn 4 _ (by omega) hs4 hc4,
    reconnectLoop, dif_neg (by omega)]
  rfl

/-- C5: `reconnect()` is a no-op when shutdown is in progress (nothing
closed, no attempt, state untouched); otherwise it closes an existing
connection exactly when there is one, calls `connect()` at most 5 times,
sleeps `min(30s, (attempt² + 1)s)` after the failed attempts (0-based
consecutive attempt indices); if all 5 attempts fail with no shutdown it
ends `StateDisconnected` with the terminal error recorded and exactly one
reconnect-exhausted log; if shutdown is first observed at iteration `k` it
aborts with exactly `k` attempts and no exhausted log. -/
theorem C5_reconnect_bounded_retry (shutEntry : Bool)
    (shut conn : Nat → Bool) (hasOldConn : Bool) (init : ReconnState) :
    (reconnect true shut conn hasOldConn init =
      ⟨true, false, ⟨0, [], init⟩⟩) ∧
    ((reconnect false shut conn hasOldConn init).closedOld = hasOldConn) ∧
    ((reconnect shutEntry shut conn hasOldConn init).trace.attempts ≤ 5) ∧
    ((reconnect shutEntry shut conn hasOldConn init).trace.backoffs =
      (List.range
        (reconnect shutEntry shut conn hasOldConn
          init).trace.backoffs.length).map reconnectBackoff) ∧
    ((∀ k, k < 5 → shut k = false ∧ conn k = false) →
      (reconnect false shut conn hasOldConn init).trace =
        ⟨5, [1, 2, 5, 10, 17],
         { connectionState := .StateDisconnected,
           lastError := .reconnectExhausted,
           exhaustedLogs := init.exhaustedLogs + 1 }⟩) ∧
    (∀ k, k < 5 → shut k = true →
      (∀ j, j < k → shut j = false ∧ conn j = false) →
      (reconnect false shut conn hasOldConn init).trace.attempts = k ∧
      (reconnect false shut conn hasOldConn
        init).trace.final.exhaustedLogs = init.exhaustedLogs) := by
  refine ⟨rfl, rfl, ?_, ?_, fun h => ?_, fun k hk5 hsk hpre => ?_⟩
  · cases shutEntry
    · exact reconnectLoop_attempts_le shut conn 5 0 _ (by omega)
    · exact Nat.zero_le _
  · cases shutEntry
    · rw [List.range_eq_range']
      exact reconnectLoop_backoffs shut conn 5 0 _ (by omega)
    · rfl
  · show reconnectLoop shut conn 0 _ = _
    rw [reconnectLoop_allfail shut conn _ h]
  · have := reconnectLoop_abort shut conn 5 0
      { init with connectionState := .StateConnecting } k (by omega)
      (Nat.zero_le k) hk5 hsk (fun j _ h2 => hpre j h2)
    exact ⟨by simpa using this.1, this.2⟩

/-- Witness for `C5_reconnect_bounded_retry`: a run where every `connect()`
fails and shutdown is never observed (exhaustion), and a run where shutdown
is first observed at iteration 2 (early abort after 2 attempts). -/
theorem C5_reconnect_bounded_retry_witness :
    (reconnect true (fun _ => false) (fun _ => false) true
      ⟨.StateConnected, .nilErr, 0⟩ =
        ⟨true, false, ⟨0, [], ⟨.StateConnected, .nilErr, 0⟩⟩⟩) ∧
    ((reconnect false (fun _ => false) (fun _ => false) true
      ⟨.StateConnected, .nilErr, 0⟩).trace =
        ⟨5, [1, 2, 5, 10, 17],
         ⟨.StateDisconnected, .reconnectExhausted, 1⟩⟩) ∧
    ((reconnect false (fun k => decide (k = 2)) (fun _ => false) true
      ⟨.StateConnected, .nilErr, 0⟩).trace.attempts = 2 ∧
     (reconnect false (fun k => decide (k = 2)) (fun _ => false) true
      ⟨.StateConnected, .nilErr, 0⟩).trace.final.exhaustedLogs = 0) := by
  refine ⟨(C5_reconnect_bounded_retry true (fun _ => false) (fun _ => false)
      true ⟨.StateConnected, .nilErr, 0⟩).1, ?_, ?_⟩
  · exact (C5_reconnect_bounded_retry false (fun _ => false) (fun _ => false)
      true ⟨.StateConnected, .nilErr, 0⟩).2.2.2.2.1
      (fun k _ => ⟨rfl, rfl⟩)
  · exact (C5_reconnect_bounded_retry false (fun k => decide (k = 2))
      (fun _ => false) true ⟨.StateConnected, .nilErr, 0⟩).2.2.2.2.2 2
      (by omega) (by decide)
      (fun j hj => ⟨by simp only [decide_eq_false_iff_not]; omega, rfl⟩)

/-- C7: whenever the first attempt's error is classified fatal (and shutdown
was not observed before it), `executeWithRetry` makes exactly 1 attempt, no
backoff sleep occurs, and the loop exits on the fatal path — for every
remaining retry budget `maxRetries`. -/
theorem C7_fatal_first_attempt (maxRetries : Nat) (shut : Nat → Bool)
    (opErr : Nat → Option Nat) (fatalClass : Nat → Bool) (e : Nat)
    (hs : shut 0 = false) (he : opErr 0 = some e)
    (hf : fatalClass e = true) :
    executeWithRetry maxRetries shut opErr fatalClass =
      ⟨1, [], .fatalError⟩ := by
  rw [executeWithRetry, executeWithRetryAux, hs, he]
  simp [hf]

/-- Witness for `C7_fatal_first_attempt`: `maxRetries = 3`, a classifier
that calls error code 7 fatal (the repository's own `isFatalError` never
does — the fatal branch is exercised only under a non-trivial classifier). -/
theorem C7_fatal_first_attempt_witness :
    ((fun _ : Nat => false) 0 = false ∧
     (fun _ : Nat => some 7) 0 = some 7 ∧
     (fun _ : Nat => true) 7 = true) ∧
    executeWithRetry 3 (fun _ => false) (fun _ => some 7) (fun _ => true) =
      ⟨1, [], .fatalError⟩ :=
  ⟨⟨rfl, rfl, rfl⟩,
    C7_fatal_first_attempt 3 (fun _ => false) (fun _ => some 7)
      (fun _ => true) 7 rfl rfl rfl⟩

/-! ## Jittered scheduler interval (`request.go`,
`calculateJitteredInterval`)

Durations are int64 nanoseconds in Go; the float64 arithmetic of the jitter
computation is modelled exactly over `ℚ` and `rand.Float64()` as an
arbitrary `r` with `0 ≤ r < 1` (the final `time.Duration(interval)`
truncation to whole nanoseconds is absorbed into the exact value). -/

/-- `time.Millisecond` in nanoseconds. -/
def millisecondNs : ℚ := 1000000

/-- `(c *GRPCClient) calculateJitteredInterval() time.Duration`:
early-return of `RequestInterval` unchanged when `JitterPercent <= 0`,
otherwise `interval = RequestInterval + (r*jitterRange - jitterRange/2)`
with `jitterRange = JitterPercent/100 * RequestInterval`, floor-clamped to
1ms. -/
def calculateJitteredInterval (requestInterval : ℚ) (jitterPercent : Int)
    (r : ℚ) : ℚ :=
  if jitterPercent ≤ 0 then requestInterval
  else
    let jitterRange : ℚ := (jitterPercent : ℚ) / 100 * requestInterval
    let jitter : ℚ := r * jitterRange - jitterRange / 2
    let interval : ℚ := requestInterval + jitter
    if interval < millisecondNs then millisecondNs else interval

/-- C8 counterexample: the claim's "for every configuration ... never below
1 millisecond" fails.  With `RequestInterval = 0` (the loader accepts
`REQUEST_INTERVAL_SEC=0` unclamped) and `JitterPercent = 0` (inside the
clamped 0–100 range), the `JitterPercent <= 0` early return bypasses the
1ms floor and the returned wait is 0 < 1ms, for any random draw. -/
theorem C8_counterexample_wait_below_1ms :
    calculateJitteredInterval 0 0 (1/2) = 0 ∧ (0 : ℚ) < millisecondNs := by
  constructor
  · rfl
  · norm_num [millisecondNs]

/-- C8 amended: with `RequestInterval = 30s` and `JitterPercent = 10` the
wait lies in `[28.5s, 31.5s]` for every draw `r ∈ [0,1)`; for every
configuration with `JitterPercent > 0` the wait is at least 1ms; but with
`JitterPercent ≤ 0` the function returns `RequestInterval` unchanged, so the
1ms floor does not apply on that path (the counterexample). -/
theorem C8_amended_jitter_bounds (requestInterval : ℚ) (jitterPercent : Int)
    (r : ℚ) :
    (0 ≤ r → r < 1 →
      (28500000000 ≤ calculateJitteredInterval 30000000000 10 r ∧
       calculateJitteredInterval 30000000000 10 r ≤ 31500000000)) ∧
    (0 < jitterPercent →
      millisecondNs ≤
        calculateJitteredInterval requestInterval jitterPercent r) ∧
    (jitterPercent ≤ 0 →
      calculateJitteredInterval requestInterval jitterPercent r =
        requestInterval) := by
  have floor_clamp : ∀ a b : ℚ, b ≤ if a < b then b else a := by
    intro a b
    split
    · exact le_refl b
    · next hab => exact le_of_not_lt hab
  refine ⟨fun hr0 hr1 => ?_, fun hjp => ?_, fun hjp => ?_⟩
  · rw [calculateJitteredInterval, if_neg (by norm_num)]
    simp only [millisecondNs]
    rw [if_neg (by push_cast; linarith)]
    constructor <;> [push_cast; push_cast] <;> linarith
  · rw [calculateJitteredInterval, if_neg (by omega)]
    exact floor_clamp _ _
  · rw [calculateJitteredInterval, if_pos hjp]

/-- Witness for `C8_amended_jitter_bounds`: draw `r = 1/2` with
`RequestInterval = 30s`, `JitterPercent = 10`. -/
theorem C8_amended_jitter_bounds_witness :
    ((0 : ℚ) ≤ 1/2 ∧ (1/2 : ℚ) < 1) ∧
    (28500000000 ≤ calculateJitteredInterval 30000000000 10 (1/2) ∧
     calculateJitteredInterval 30000000000 10 (1/2) ≤ 31500000000) ∧
    millisecondNs ≤ calculateJitteredInterval 30000000000 10 (1/2) := by
  have h := C8_amended_jitter_bounds 30000000000 10 (1/2)
  exact ⟨⟨by norm_num, by norm_num⟩,
    h.1 (by norm_num) (by norm_num), h.2.1 (by norm_num)⟩

/-! ## Shutdown (`client.go`, `(c *GRPCClient) Shutdown()`)

The flag check and set run under `c.mu`; the model counts the teardown
steps a `Shutdown` call performs (`cancel()`, `close(c.stopChan)`).  The
connection resource is released by `cleanup()` (run once by `Run()` after
the main loop exits), never by `Shutdown` itself, so `connCloses` counts
any release of the connection. -/

/-- The `GRPCClient` fields `Shutdown` touches, plus effect counters. -/
structure ClientState where
  isShutting : Bool
  cancelCalls : Nat
  stopChanCloses : Nat
  connCloses : Nat
deriving DecidableEq, Repr

/-- `(c *GRPCClient) Shutdown()`: return immediately if `isShutting` is
already set; otherwise set it and perform the teardown sequence
(`cancel()`, `close(c.stopChan)`, `wg.Wait()`). -/
def ClientState.Shutdown (s : ClientState) : ClientState :=
  if s.isShutting then s
  else { s with
    isShutting := true
    cancelCalls := s.cancelCalls + 1
    stopChanCloses := s.stopChanCloses + 1 }

/-- C9: `Shutdown` is idempotent — from a not-yet-shutting state one call
sets the flag and performs exactly one cancellation and one stop-channel
close while never touching the connection resource; a call on an
already-shutting state changes nothing; hence a second invocation after a
first completed one performs no teardown step. -/
theorem C9_shutdown_idempotent (s : ClientState) :
    (s.isShutting = false →
      (s.Shutdown).isShutting = true ∧
      (s.Shutdown).cancelCalls = s.cancelCalls + 1 ∧
      (s.Shutdown).stopChanCloses = s.stopChanCloses + 1 ∧
      (s.Shutdown).connCloses = s.connCloses) ∧
    (s.isShutting = true → s.Shutdown = s) ∧
    s.Shutdown.Shutdown = s.Shutdown := by
  by_cases h : s.isShutting
  · refine ⟨fun hf => by rw [hf] at h; exact Bool.noConfusion h,
      fun _ => ?_, ?_⟩
    · simp [ClientState.Shutdown, h]
    · simp [ClientState.Shutdown, h]
  · refine ⟨fun _ => ?_, fun ht => absurd ht h, ?_⟩
    · simp [ClientState.Shutdown, h]
    · simp [ClientState.Shutdown, h]

/-- Witness for `C9_shutdown_idempotent`: the freshly constructed client
(flag clear, no teardown performed yet). -/
theorem C9_shutdown_idempotent_witness :
    (⟨false, 0, 0, 0⟩ : ClientState).isShutting = false ∧
    ((⟨false, 0, 0, 0⟩ : ClientState).Shutdown.isShutting = true ∧
     (⟨false, 0, 0, 0⟩ : ClientState).Shutdown.cancelCalls = 1 ∧
     (⟨false, 0, 0, 0⟩ : ClientState).Shutdown.stopChanCloses = 1 ∧
     (⟨false, 0, 0, 0⟩ : ClientState).Shutdown.connCloses = 0) ∧
    (⟨false, 0, 0, 0⟩ : ClientState).Shutdown.Shutdown =
      (⟨false, 0, 0, 0⟩ : ClientState).Shutdown := by
  have h := C9_shutdown_idempotent ⟨false, 0, 0, 0⟩
  exact ⟨rfl, h.1 rfl, h.2.2⟩

end Srpc
